import Mathlib

/-!
Shallow embedding of `src/main.js` of wmhegarty/cdmenu, the Tauri frontend of a
Bitbucket pipeline status menu app. JavaScript strings are Lean `String`s
(with the empty string standing for both `""` and `null`/`undefined` where the
code only tests truthiness), nullable fields are `Option`, a backend `invoke`
that may reject is an `Except String` argument, and DOM mutation is explicit
state passing on small record types.
-/

namespace CDMenu

/-- One element of `AggregateStatus.failed_pipelines` as read by
`updateStatusDisplay` (fields `repo_name`, `repo_slug`, `failure_reason`).
`repo_name` is `Option String`; JavaScript `p.repo_name || p.repo_slug`
falls back on both a missing and an empty name. -/
structure FailedPipeline where
  repo_name : Option String
  repo_slug : String
  failure_reason : String
deriving DecidableEq

/-- The aggregate snapshot payload consumed by `updateStatusDisplay`. -/
structure AggregateStatus where
  is_healthy : Bool
  total_monitored : Nat
  in_progress_count : Nat
  failed_pipelines : List FailedPipeline
  last_checked : String
deriving DecidableEq

/-- The two DOM cells `updateStatusDisplay` writes: `statusDetails.innerHTML`
and `statusIndicator.className`. -/
structure Display where
  statusDetails : String
  statusIndicator : String
deriving DecidableEq

/-- JavaScript `a || b` on a nullable string: the fallback fires when the
name is `null`/`undefined` or empty (falsy). -/
def jsOrElse (name : Option String) (fallback : String) : String :=
  match name with
  | none => fallback
  | some s => if s = "" then fallback else s

/-- One `<li>` of the failed list: `` `<li>${p.repo_name || p.repo_slug} - ${p.failure_reason}</li>` ``. -/
def failedItem (p : FailedPipeline) : String :=
  "<li>" ++ jsOrElse p.repo_name p.repo_slug ++ " - " ++ p.failure_reason ++ "</li>"

/-- The list of rendered `<li>` entries, in `failed_pipelines` order
(the `.map(...)` before `.join('')` in `updateStatusDisplay`). -/
def failedItems (s : AggregateStatus) : List String :=
  s.failed_pipelines.map failedItem

/-- `statusDetails.innerHTML` assembled on the healthy branch of
`updateStatusDisplay`. -/
def healthyHtml (s : AggregateStatus) : String :=
  "<p class=\"healthy\">All " ++ toString s.total_monitored ++ " pipeline(s) healthy</p>"
    ++ (if s.in_progress_count > 0 then
          "<p class=\"in-progress\">" ++ toString s.in_progress_count ++ " in progress</p>"
        else "")
    ++ "<p class=\"last-checked\">Last checked: " ++ s.last_checked ++ "</p>"

/-- `statusDetails.innerHTML` assembled on the unhealthy branch of
`updateStatusDisplay` (template-literal indentation elided). -/
def failedHtml (s : AggregateStatus) : String :=
  "<p class=\"failed\">" ++ toString s.failed_pipelines.length ++ " pipeline(s) failed</p>"
    ++ "<ul class=\"failed-list\">" ++ String.join (failedItems s) ++ "</ul>"
    ++ "<p class=\"last-checked\">Last checked: " ++ s.last_checked ++ "</p>"

/-- `updateStatusDisplay(status)`: a falsy status renders the gray
no-status view; otherwise the indicator and details follow `is_healthy`. -/
def updateStatusDisplay (status : Option AggregateStatus) : Display :=
  match status with
  | none =>
      { statusDetails := "<p>No status available</p>", statusIndicator := "status-gray" }
  | some s =>
      if s.is_healthy then
        { statusDetails := healthyHtml s, statusIndicator := "status-green" }
      else
        { statusDetails := failedHtml s, statusIndicator := "status-red" }

/-- `loadCurrentStatus()`: invokes `get_pipeline_statuses`; only a truthy
result is passed to `updateStatusDisplay`, a rejection is logged to the
console and a falsy result skipped, leaving the display untouched. -/
def loadCurrentStatus (fetch : Except String (Option AggregateStatus))
    (d : Display) : Display :=
  match fetch with
  | .error _ => d
  | .ok none => d
  | .ok (some s) => updateStatusDisplay (some s)

/-- One entry of `monitoredPipelines`. `addMonitoredPipeline` always pushes
`branch: null`; entries loaded from persistence may carry any branch. -/
structure Pipeline where
  workspace : String
  project_key : String
  project_name : Option String
  repo_slug : String
  repo_name : String
  branch : Option String
deriving DecidableEq

/-- The user-facing outcome of `addMonitoredPipeline` (which
`showNotification` it reaches, or a successful save). -/
inductive AddOutcome
  | missingSelection
  | duplicate
  | saved
  | saveFailed
deriving DecidableEq

/-- The duplicate test of `addMonitoredPipeline`:
`monitoredPipelines.some(p => p.workspace === workspace && p.repo_slug === repoSlug)`.
The branch is not consulted. -/
def dupExists (workspace repoSlug : String) (l : List Pipeline) : Bool :=
  l.any fun p => p.workspace == workspace && p.repo_slug == repoSlug

/-- `addMonitoredPipeline()`: validates the three selects, rejects
duplicates by (workspace, repo_slug), pushes the new entry with a null
branch, persists via `save_monitored_pipelines`, and pops the pushed entry
again when the save rejects. Returns the resulting local
`monitoredPipelines` and the outcome. -/
def addMonitoredPipeline (workspace projectKey : String)
    (projectName : Option String) (repoSlug repoName : String)
    (saveOk : Bool) (l : List Pipeline) : List Pipeline × AddOutcome :=
  if workspace = "" ∨ projectKey = "" ∨ repoSlug = "" then
    (l, .missingSelection)
  else if dupExists workspace repoSlug l then
    (l, .duplicate)
  else
    let pushed := l ++ [⟨workspace, projectKey, projectName, repoSlug, repoName, none⟩]
    if saveOk then (pushed, .saved)
    else (pushed.dropLast, .saveFailed)

/-- `removePipeline(index)`: splices the entry out of the local list first,
then persists; a failed save only shows a notification and restores
nothing. Returns the local list and what was persisted (`none` when
`save_monitored_pipelines` rejected, so the store keeps its previous
contents). -/
def removePipeline (index : Nat) (saveOk : Bool) (l : List Pipeline) :
    List Pipeline × Option (List Pipeline) :=
  let spliced := l.eraseIdx index
  (spliced, if saveOk then some spliced else none)

/-- JavaScript `parseInt(s, 10)`: skip leading whitespace, an optional
sign, then the longest run of decimal digits; `none` models `NaN` (no
digits). -/
def parseIntJs (s : String) : Option Int :=
  let cs := s.data.dropWhile Char.isWhitespace
  let signAndRest : Int × List Char :=
    match cs with
    | '-' :: r => (-1, r)
    | '+' :: r => (1, r)
    | r => (1, r)
  let ds := signAndRest.2.takeWhile Char.isDigit
  if ds = [] then none
  else some (signAndRest.1 * (ds.foldl (fun acc c => acc * 10 + (c.toNat - 48)) 0 : Nat))

/-- The observable outcome of `saveSettings()`: the validation
notification, or an `invoke('set_polling_interval', ...)` whose `seconds`
argument is `some n` for a number and `none` for `NaN`. -/
inductive SettingsOutcome
  | validationError
  | invoked (seconds : Option Int)
deriving DecidableEq

/-- `saveSettings()`: `parseInt` the field, reject when `interval < 30`,
else invoke `set_polling_interval` with the parsed value. A `NaN` parse
fails the `< 30` comparison (JavaScript `NaN < 30` is `false`), so the
invoke proceeds with `NaN`. -/
def saveSettings (input : String) : SettingsOutcome :=
  match parseIntJs input with
  | some n => if n < 30 then .validationError else .invoked (some n)
  | none => .invoked none

/-- The frontend state touched by `loadSavedCredentials` / `loadWorkspaces`:
the two credential globals, the `authStatus` element (`none` = never
written by `showAuthStatus`), and how often `get_workspaces` was invoked. -/
structure AuthState where
  currentUsername : String
  currentAppPassword : String
  authStatus : Option (String × String)
  getWorkspacesCalls : Nat
deriving DecidableEq

/-- The page state before `DOMContentLoaded` runs: empty credentials,
hidden auth status, no backend calls yet. -/
def initAuthState : AuthState :=
  { currentUsername := "", currentAppPassword := "",
    authStatus := none, getWorkspacesCalls := 0 }

/-- `showAuthStatus(message, type)`: writes the auth status element. -/
def showAuthStatus (message ty : String) (st : AuthState) : AuthState :=
  { st with authStatus := some (message, ty) }

/-- `loadWorkspaces()`: returns immediately when either credential global
is falsy; otherwise invokes `get_workspaces` and, on rejection, shows a
failure message via `showAuthStatus`. -/
def loadWorkspaces (fetch : Except String Unit) (st : AuthState) : AuthState :=
  if st.currentUsername = "" ∨ st.currentAppPassword = "" then st
  else
    let st1 := { st with getWorkspacesCalls := st.getWorkspacesCalls + 1 }
    match fetch with
    | .ok _ => st1
    | .error e => showAuthStatus ("Failed to load workspaces: " ++ e) "error" st1

/-- `loadSavedCredentials()`: reads `get_credentials`; a truthy username is
stored, then `get_app_password` is read; a truthy password is stored,
`Credentials saved` is shown and `loadWorkspaces` runs. Falsy results fall
through silently; a rejection anywhere is only logged to the console. -/
def loadSavedCredentials (credRes pwdRes : Except String String)
    (wsFetch : Except String Unit) (st : AuthState) : AuthState :=
  match credRes with
  | .error _ => st
  | .ok username =>
    if username = "" then st
    else
      let st1 := { st with currentUsername := username }
      match pwdRes with
      | .error _ => st1
      | .ok password =>
        if password = "" then st1
        else
          let st2 := { st1 with currentAppPassword := password }
          loadWorkspaces wsFetch (showAuthStatus "Credentials saved" "success" st2)

/-- Modelled from the spec: the Poll Scheduler of §4.5/§5 lives in the
Tauri backend (`trigger_refresh` is only invoked from `src/main.js`), so
its state is modelled from the spec's words — a single-tick-in-flight
flag (`running` counts ticks currently executing) plus at most one
remembered pending manual request. -/
structure SchedState where
  running : Nat
  pendingManual : Bool
deriving DecidableEq

/-- Modelled from the spec: the events the Poll Scheduler reacts to — a
manual trigger (`triggerManualTick()` / the refresh button's
`trigger_refresh`), the interval timer firing, and an in-flight tick
completing. -/
inductive SchedEvent
  | manualTrigger
  | timerFire
  | tickComplete
deriving DecidableEq

/-- Modelled from the spec: scheduler startup — no tick in flight, no
pending manual request. -/
def schedInit : SchedState :=
  { running := 0, pendingManual := false }

/-- Modelled from the spec: one scheduler transition. A manual trigger
executes immediately if no tick is in flight, else is coalesced into the
single pending flag; the timer starts a tick only when none is in flight;
tick completion consumes a pending manual request by starting the next
tick at once. -/
def schedStep (st : SchedState) (e : SchedEvent) : SchedState :=
  match e with
  | .manualTrigger =>
      if st.running ≥ 1 then { st with pendingManual := true }
      else { running := 1, pendingManual := st.pendingManual }
  | .timerFire =>
      if st.running ≥ 1 then st
      else { st with running := 1 }
  | .tickComplete =>
      if st.pendingManual then { running := 1, pendingManual := false }
      else { running := st.running - 1, pendingManual := false }

/-- Modelled from the spec: the scheduler state after a finite event
history, starting from startup. -/
def schedRun (events : List SchedEvent) : SchedState :=
  events.foldl schedStep schedInit

/-- A concrete monitored pipeline used to instantiate theorems. -/
def pipeA : Pipeline :=
  ⟨"w", "P", none, "r", "R", none⟩

/-- A concrete persisted pipeline carrying a non-null branch filter. -/
def branchPipeline : Pipeline :=
  ⟨"ws", "PK", some "Proj", "repo", "Repo", some "main"⟩

/-- A concrete healthy aggregate snapshot. -/
def healthyEx : AggregateStatus :=
  ⟨true, 2, 1, [], "2026-01-01"⟩

/-- A concrete unhealthy aggregate snapshot with one failed pipeline. -/
def failedEx : AggregateStatus :=
  ⟨false, 1, 0, [⟨none, "repo", "boom"⟩], "2026-01-01"⟩

/-- C10: `updateStatusDisplay` on a null/undefined status renders the
`No status available` message with the gray indicator and returns, reading
no field of its argument and raising nothing (it is a total function on
`Option AggregateStatus`, and the `none` branch is field-free). -/
theorem updateStatusDisplay_absent_total :
    updateStatusDisplay none =
      { statusDetails := "<p>No status available</p>", statusIndicator := "status-gray" } :=
  rfl

/-- C3: for every non-null status the indicator is `status-green` with the
all-healthy details exactly when `is_healthy` is true, and `status-red`
with the failed-pipeline details exactly when it is false. -/
theorem updateStatusDisplay_health_iff (s : AggregateStatus) :
    ((updateStatusDisplay (some s)).statusIndicator = "status-green" ↔ s.is_healthy = true) ∧
    ((updateStatusDisplay (some s)).statusIndicator = "status-red" ↔ s.is_healthy = false) ∧
    (s.is_healthy = true → (updateStatusDisplay (some s)).statusDetails = healthyHtml s) ∧
    (s.is_healthy = false → (updateStatusDisplay (some s)).statusDetails = failedHtml s) := by
  cases hb : s.is_healthy <;> simp [updateStatusDisplay, hb]

theorem updateStatusDisplay_health_iff_witness :
    (updateStatusDisplay (some healthyEx)).statusIndicator = "status-green" ∧
    (updateStatusDisplay (some failedEx)).statusIndicator = "status-red" :=
  ⟨((updateStatusDisplay_health_iff healthyEx).1).mpr rfl,
   ((updateStatusDisplay_health_iff failedEx).2.1).mpr rfl⟩

/-- C4: on an unhealthy status the details embed the joined failed list,
which has exactly one rendered entry per element of `failed_pipelines`, at
the same index, showing the repo name (slug when the name is absent) and
the failure reason. -/
theorem updateStatusDisplay_failed_list_order (s : AggregateStatus)
    (hs : s.is_healthy = false) :
    (updateStatusDisplay (some s)).statusDetails =
      "<p class=\"failed\">" ++ toString s.failed_pipelines.length ++ " pipeline(s) failed</p>"
        ++ "<ul class=\"failed-list\">" ++ String.join (failedItems s) ++ "</ul>"
        ++ "<p class=\"last-checked\">Last checked: " ++ s.last_checked ++ "</p>" ∧
    (failedItems s).length = s.failed_pipelines.length ∧
    ∀ (i : Nat) (p : FailedPipeline), s.failed_pipelines[i]? = some p →
      (failedItems s)[i]? =
        some ("<li>" ++ jsOrElse p.repo_name p.repo_slug ++ " - " ++ p.failure_reason ++ "</li>") := by
  refine ⟨by simp [updateStatusDisplay, hs, failedHtml], by simp [failedItems], ?_⟩
  intro i p hp
  simp [failedItems, hp, failedItem]

theorem updateStatusDisplay_failed_list_order_witness :
    (failedItems failedEx)[0]? =
      some ("<li>" ++ jsOrElse none "repo" ++ " - " ++ "boom" ++ "</li>") :=
  (updateStatusDisplay_failed_list_order failedEx rfl).2.2 0 ⟨none, "repo", "boom"⟩ rfl

/-- C5: a rejected `get_pipeline_statuses` or a null/absent result leaves
the status display (details and indicator) exactly as it was. -/
theorem loadCurrentStatus_preserves_display (e : String) (d : Display) :
    loadCurrentStatus (Except.error e) d = d ∧
    loadCurrentStatus (Except.ok none) d = d :=
  ⟨rfl, rfl⟩

/-- C2, counterexample: the duplicate check ignores the branch. An entry
with the same workspace and repo but branch `"main"` is present, so the
triple (workspace, repo, null branch) of the attempted add is absent from
the list, yet the add is rejected as a duplicate and nothing is appended. -/
theorem addMonitoredPipeline_branch_ignored :
    addMonitoredPipeline "ws" "PK" (some "Proj") "repo" "Repo" true [branchPipeline] =
      ([branchPipeline], AddOutcome.duplicate) ∧
    List.all [branchPipeline]
      (fun p => !(p.workspace == "ws" && p.repo_slug == "repo" && p.branch == none)) = true := by
  constructor
  · simp [addMonitoredPipeline, dupExists, branchPipeline]
  · decide

/-- C2, amended: monitored targets are unique by (workspace, repo_slug)
only — the branch is not part of the key. With all three selects nonempty,
the add is rejected with a duplicate error and an unchanged list exactly
when some existing entry matches on workspace and repo_slug, and otherwise
a successful save appends the new entry (with a null branch). -/
theorem addMonitoredPipeline_unique_by_workspace_repo
    (workspace projectKey : String) (projectName : Option String)
    (repoSlug repoName : String) (saveOk : Bool) (l : List Pipeline)
    (hw : ¬ workspace = "") (hp : ¬ projectKey = "") (hr : ¬ repoSlug = "") :
    (dupExists workspace repoSlug l = true →
      addMonitoredPipeline workspace projectKey projectName repoSlug repoName saveOk l =
        (l, AddOutcome.duplicate)) ∧
    (dupExists workspace repoSlug l = false → saveOk = true →
      addMonitoredPipeline workspace projectKey projectName repoSlug repoName saveOk l =
        (l ++ [⟨workspace, projectKey, projectName, repoSlug, repoName, none⟩],
         AddOutcome.saved)) := by
  constructor
  · intro hd
    simp [addMonitoredPipeline, hw, hp, hr, hd]
  · intro hd hs
    simp [addMonitoredPipeline, hw, hp, hr, hd, hs]

theorem addMonitoredPipeline_unique_by_workspace_repo_witness :
    addMonitoredPipeline "w" "P" none "r" "R" true [] =
      ([⟨"w", "P", none, "r", "R", none⟩], AddOutcome.saved) :=
  (addMonitoredPipeline_unique_by_workspace_repo "w" "P" none "r" "R" true []
    (by decide) (by decide) (by decide)).2 rfl rfl

/-- C8: when the save rejects, the pushed entry is popped again, so a
non-duplicate add with valid selections leaves the local list exactly as
it was. -/
theorem addMonitoredPipeline_save_failure_rollback
    (workspace projectKey : String) (projectName : Option String)
    (repoSlug repoName : String) (l : List Pipeline)
    (hw : ¬ workspace = "") (hp : ¬ projectKey = "") (hr : ¬ repoSlug = "")
    (hd : dupExists workspace repoSlug l = false) :
    (addMonitoredPipeline workspace projectKey projectName repoSlug repoName false l).1 = l := by
  simp [addMonitoredPipeline, hw, hp, hr, hd]

theorem addMonitoredPipeline_save_failure_rollback_witness :
    (addMonitoredPipeline "w" "P" none "r" "R" false [branchPipeline]).1 = [branchPipeline] :=
  addMonitoredPipeline_save_failure_rollback "w" "P" none "r" "R" [branchPipeline]
    (by decide) (by decide) (by decide) (by decide)

/-- C9: `removePipeline` splices locally before persisting, and a failed
save restores nothing: the entry stays removed from the local list (which
therefore differs from the list before the call) while the persisted
store keeps its previous contents. -/
theorem removePipeline_no_rollback (index : Nat) (l : List Pipeline)
    (h : index < l.length) :
    (removePipeline index false l).1 = l.eraseIdx index ∧
    (removePipeline index false l).1 ≠ l ∧
    (removePipeline index false l).2 = none := by
  refine ⟨rfl, ?_, rfl⟩
  intro heq
  have hlen := congrArg List.length heq
  rw [removePipeline] at hlen
  simp only [List.length_eraseIdx, h, if_true] at hlen
  omega

theorem removePipeline_no_rollback_witness :
    (removePipeline 0 false [pipeA]).1 = [] ∧
    (removePipeline 0 false [pipeA]).1 ≠ [pipeA] ∧
    (removePipeline 0 false [pipeA]).2 = none :=
  removePipeline_no_rollback 0 [pipeA] (by decide)

/-- C1, counterexample: a field that does not parse to a number (here the
empty field) yields `NaN`; `NaN < 30` is false, so validation is bypassed
and `set_polling_interval` is invoked with a non-numeric `seconds` — no
validation error is shown. -/
theorem saveSettings_nan_bypasses_floor :
    saveSettings "" = SettingsOutcome.invoked none ∧
    SettingsOutcome.invoked (none : Option Int) ≠ SettingsOutcome.validationError := by
  constructor
  · rfl
  · decide

/-- C1, amended: inputs parsing to an integer below 30 are rejected with a
validation error and no invoke; whenever `set_polling_interval` is invoked
with a numeric value, that value is at least 30; but an input that parses
to `NaN` bypasses the floor and `set_polling_interval` is invoked with
`NaN`. -/
theorem saveSettings_floor_amended (input : String) :
    (∀ n : Int, parseIntJs input = some n → n < 30 →
      saveSettings input = SettingsOutcome.validationError) ∧
    (∀ n : Int, parseIntJs input = some n → 30 ≤ n →
      saveSettings input = SettingsOutcome.invoked (some n)) ∧
    (∀ n : Int, saveSettings input = SettingsOutcome.invoked (some n) → 30 ≤ n) ∧
    (parseIntJs input = none → saveSettings input = SettingsOutcome.invoked none) := by
  refine ⟨?_, ?_, ?_, ?_⟩
  · intro n hpn hlt
    simp [saveSettings, hpn, hlt]
  · intro n hpn hge
    simp [saveSettings, hpn]
    omega
  · intro n hinv
    cases hpn : parseIntJs input with
    | none => simp [saveSettings, hpn] at hinv
    | some m =>
      simp only [saveSettings, hpn] at hinv
      by_cases hm : m < 30
      · rw [if_pos hm] at hinv
        exact absurd hinv (by simp)
      · rw [if_neg hm] at hinv
        have : m = n := by simpa using hinv
        omega
  · intro hpn
    simp [saveSettings, hpn]

theorem saveSettings_floor_amended_witness :
    saveSettings "45" = SettingsOutcome.invoked (some 45) ∧
    saveSettings "10" = SettingsOutcome.validationError :=
  ⟨(saveSettings_floor_amended "45").2.1 45 (by decide) (by decide),
   (saveSettings_floor_amended "10").1 10 (by decide) (by decide)⟩

/-- C6: a startup where `get_credentials` returns an empty username, or
where `get_app_password` returns an empty password, shows nothing in the
auth status element and never invokes `get_workspaces`; independently,
`loadWorkspaces` returns its state untouched whenever either credential
global is empty. -/
theorem loadSavedCredentials_absent_silent
    (credRes pwdRes : Except String String) (wsFetch : Except String Unit)
    (h : credRes = Except.ok "" ∨ ∃ u, credRes = Except.ok u ∧ pwdRes = Except.ok "") :
    (loadSavedCredentials credRes pwdRes wsFetch initAuthState).authStatus = none ∧
    (loadSavedCredentials credRes pwdRes wsFetch initAuthState).getWorkspacesCalls = 0 ∧
    ∀ (st : AuthState) (fetch : Except String Unit),
      st.currentUsername = "" ∨ st.currentAppPassword = "" →
      loadWorkspaces fetch st = st := by
  have hlw : ∀ (st : AuthState) (fetch : Except String Unit),
      st.currentUsername = "" ∨ st.currentAppPassword = "" →
      loadWorkspaces fetch st = st := by
    intro st fetch hst
    simp [loadWorkspaces, hst]
  rcases h with hc | ⟨u, hc, hpw⟩
  · subst hc
    exact ⟨rfl, rfl, hlw⟩
  · subst hc
    subst hpw
    by_cases hu : u = ""
    · refine ⟨?_, ?_, hlw⟩ <;> simp [loadSavedCredentials, hu, initAuthState]
    · refine ⟨?_, ?_, hlw⟩ <;> simp [loadSavedCredentials, hu, initAuthState]

theorem loadSavedCredentials_absent_silent_witness :
    (loadSavedCredentials (Except.ok "") (Except.ok "pw") (Except.ok ())
       initAuthState).authStatus = none ∧
    (loadSavedCredentials (Except.ok "user") (Except.ok "") (Except.ok ())
       initAuthState).getWorkspacesCalls = 0 :=
  ⟨(loadSavedCredentials_absent_silent (Except.ok "") (Except.ok "pw") (Except.ok ())
      (Or.inl rfl)).1,
   (loadSavedCredentials_absent_silent (Except.ok "user") (Except.ok "") (Except.ok ())
      (Or.inr ⟨"user", rfl, rfl⟩)).2.1⟩

/-- Helper for C7: one scheduler transition preserves the
single-tick-in-flight bound. -/
lemma schedStep_running_le (st : SchedState) (e : SchedEvent)
    (h : st.running ≤ 1) : (schedStep st e).running ≤ 1 := by
  cases e <;> simp only [schedStep] <;> split <;> simp_all

/-- Helper for C7: the bound is preserved along any event history. -/
lemma schedFoldl_running_le (events : List SchedEvent) (st : SchedState)
    (h : st.running ≤ 1) : (events.foldl schedStep st).running ≤ 1 := by
  induction events generalizing st with
  | nil => exact h
  | cons e es ih => exact ih _ (schedStep_running_le st e h)

/-- C7: after any finite sequence of manual triggers, timer fires and tick
completions — in particular arbitrarily many manual triggers in quick
succession — at most one tick is executing. -/
theorem schedRun_at_most_one_tick (events : List SchedEvent) :
    (schedRun events).running ≤ 1 :=
  schedFoldl_running_le events schedInit (by decide)

end CDMenu
